import Mathlib

/-!
Verification of the DeliVeri live delivery location-tracking pipeline.

The development shallowly embeds:
- the database-side projector trigger `update_delivery_current_location` and the
  ingest path of `delivery_locations`
  (supabase/migrations/20260204000002_add_gps_tracking.sql);
- the SQL functions `calculate_distance_km` and `estimate_arrival_time`
  (same migration), with SQL NULL modelled as `Option` and the numeric type
  modelled as `ℚ`; the transcendental primitives (sin, cos, sqrt, atan2,
  radians) are abstracted as an arbitrary record of functions, since no claim
  depends on their values — only on data flow and NULL propagation;
- the mobile tracker service `LocationTrackerService`
  (deliveri-driver/src/services/LocationTracker.ts) as a state machine whose
  external calls (delivery updates, location inserts, watcher start/stop)
  become an explicit effect list;
- the tracking-status derivation `getTrackingStatus` (TrackingStatusBadge
  module) with JavaScript truthiness of optional strings made explicit;
- the subscriber's history buffer maintenance (src/hooks/useDeliveryLocation.ts):
  the initial fetch with `limit(100)` and the realtime INSERT handler
  `[newLocation, ...prev].slice(0, 100)`.
-/

namespace Deliveri

/-- One row of `delivery_locations` as relevant to the projector and the
subscriber: required latitude/longitude, optional speed/heading, and the
`recorded_at` timestamp (modelled as `ℚ`). -/
structure LocationFix where
  latitude : ℚ
  longitude : ℚ
  speed : Option ℚ
  heading : Option ℚ
  recorded_at : ℚ
deriving DecidableEq, Repr

/-- The tracking-relevant state of one `outgoing_deliveries` row together with
its `delivery_locations` log: the denormalized current-position snapshot
(nullable columns as `Option`) and the append-only list of fixes in insertion
order. -/
structure DeliveryState where
  current_latitude : Option ℚ
  current_longitude : Option ℚ
  current_speed : Option ℚ
  current_heading : Option ℚ
  last_location_update : Option ℚ
  locations : List LocationFix
deriving DecidableEq, Repr

/-- A delivery before any tracking data arrives: snapshot columns NULL and no
location rows. -/
def emptyDeliveryState : DeliveryState :=
  { current_latitude := none
    current_longitude := none
    current_speed := none
    current_heading := none
    last_location_update := none
    locations := [] }

/-- The trigger function `update_delivery_current_location`: on a new
`delivery_locations` row `NEW`, overwrite the parent delivery's snapshot
columns from `NEW` unconditionally (no comparison with the existing
`last_location_update`). -/
def update_delivery_current_location (st : DeliveryState) (NEW : LocationFix) :
    DeliveryState :=
  { st with
    current_latitude := some NEW.latitude
    current_longitude := some NEW.longitude
    current_speed := NEW.speed
    current_heading := NEW.heading
    last_location_update := some NEW.recorded_at }

/-- One ingest operation: the INSERT appends the fix to the log, and the
AFTER INSERT trigger `trigger_update_delivery_location` fires
`update_delivery_current_location` on the inserted row. -/
def ingestFix (st : DeliveryState) (fix : LocationFix) : DeliveryState :=
  update_delivery_current_location
    { st with locations := st.locations ++ [fix] } fix

/-- The spec's §3 invariant, stated as a predicate on a delivery state:
whenever the snapshot is present, there is a fix in the log that has the
greatest `recorded_at` among all fixes and whose fields the snapshot equals. -/
def snapshotMatchesLatestRecorded (st : DeliveryState) : Prop :=
  st.current_latitude ≠ none →
    ∃ f ∈ st.locations,
      (∀ g ∈ st.locations, g.recorded_at ≤ f.recorded_at) ∧
      st.current_latitude = some f.latitude ∧
      st.current_longitude = some f.longitude ∧
      st.current_speed = f.speed ∧
      st.current_heading = f.heading ∧
      st.last_location_update = some f.recorded_at

/-- Ingesting fixes only appends to the log, in insertion order. -/
theorem locations_after_foldl (fixes : List LocationFix) :
    ∀ st : DeliveryState,
      (fixes.foldl ingestFix st).locations = st.locations ++ fixes := by
  induction fixes with
  | nil => intro st; simp
  | cons x xs ih =>
    intro st
    simp only [List.foldl_cons]
    rw [ih]
    simp [ingestFix, update_delivery_current_location]

/-- After ingesting a nonempty sequence of fixes, the snapshot equals the
fields of the last-inserted fix. -/
theorem foldl_ingest_getLast (fixes : List LocationFix) :
    ∀ (st : DeliveryState) (f : LocationFix), fixes.getLast? = some f →
      (fixes.foldl ingestFix st).current_latitude = some f.latitude ∧
      (fixes.foldl ingestFix st).current_longitude = some f.longitude ∧
      (fixes.foldl ingestFix st).current_speed = f.speed ∧
      (fixes.foldl ingestFix st).current_heading = f.heading ∧
      (fixes.foldl ingestFix st).last_location_update = some f.recorded_at := by
  induction fixes with
  | nil => intro st f h; simp at h
  | cons x xs ih =>
    intro st f h
    cases xs with
    | nil =>
      simp only [List.getLast?_singleton, Option.some.injEq] at h
      subst h
      simp [ingestFix, update_delivery_current_location]
    | cons y ys =>
      rw [List.getLast?_cons_cons] at h
      simpa using ih (ingestFix st x) f h

/-- C1 (counterexample): the §3 invariant "snapshot reflects the fix with the
greatest recorded-at" fails on the code. Ingesting a fix recorded at time 2 and
then a fix recorded at time 1 leaves the snapshot at the later-inserted,
earlier-recorded fix. -/
theorem snapshot_latest_recorded_invariant_fails :
    ¬ snapshotMatchesLatestRecorded
        (ingestFix (ingestFix emptyDeliveryState
          { latitude := 1, longitude := 1, speed := none, heading := none,
            recorded_at := 2 })
          { latitude := 2, longitude := 2, speed := none, heading := none,
            recorded_at := 1 }) := by
  unfold snapshotMatchesLatestRecorded
  decide

/-- C1 (amended): whenever the snapshot is present after a sequence of ingest
operations from a fresh delivery, it equals the most recently *inserted* fix
(last-write-wins by insertion order), which need not be the one with the
greatest recorded-at. -/
theorem snapshot_present_is_last_inserted (fixes : List LocationFix)
    (hp : (fixes.foldl ingestFix emptyDeliveryState).current_latitude ≠ none) :
    ∃ f, fixes.getLast? = some f ∧
      f ∈ (fixes.foldl ingestFix emptyDeliveryState).locations ∧
      (fixes.foldl ingestFix emptyDeliveryState).current_latitude =
        some f.latitude ∧
      (fixes.foldl ingestFix emptyDeliveryState).current_longitude =
        some f.longitude ∧
      (fixes.foldl ingestFix emptyDeliveryState).current_speed = f.speed ∧
      (fixes.foldl ingestFix emptyDeliveryState).current_heading = f.heading ∧
      (fixes.foldl ingestFix emptyDeliveryState).last_location_update =
        some f.recorded_at := by
  cases fixes with
  | nil => exact absurd rfl hp
  | cons x xs =>
    have hne : x :: xs ≠ [] := by simp
    have hsome : ((x :: xs).getLast?).isSome := by
      rw [List.getLast?_isSome]; exact hne
    obtain ⟨f, hf⟩ := Option.isSome_iff_exists.mp hsome
    refine ⟨f, hf, ?_, foldl_ingest_getLast _ _ f hf⟩
    rw [locations_after_foldl]
    have := List.getLast?_eq_getLast (x :: xs) hne
    rw [this] at hf
    simp only [Option.some.injEq] at hf
    rw [← hf]
    simp [List.getLast_mem]

/-- C1 (amended) witness at a concrete two-fix run. -/
theorem snapshot_present_is_last_inserted_witness :
    ∃ f, ([⟨1, 1, none, none, 2⟩,
           (⟨2, 2, none, none, 1⟩ : LocationFix)].getLast? = some f ∧
      f ∈ (([⟨1, 1, none, none, 2⟩,
             ⟨2, 2, none, none, 1⟩] : List LocationFix).foldl ingestFix
             emptyDeliveryState).locations ∧
      (([⟨1, 1, none, none, 2⟩,
         ⟨2, 2, none, none, 1⟩] : List LocationFix).foldl ingestFix
         emptyDeliveryState).current_latitude = some f.latitude ∧
      (([⟨1, 1, none, none, 2⟩,
         ⟨2, 2, none, none, 1⟩] : List LocationFix).foldl ingestFix
         emptyDeliveryState).current_longitude = some f.longitude ∧
      (([⟨1, 1, none, none, 2⟩,
         ⟨2, 2, none, none, 1⟩] : List LocationFix).foldl ingestFix
         emptyDeliveryState).current_speed = f.speed ∧
      (([⟨1, 1, none, none, 2⟩,
         ⟨2, 2, none, none, 1⟩] : List LocationFix).foldl ingestFix
         emptyDeliveryState).current_heading = f.heading ∧
      (([⟨1, 1, none, none, 2⟩,
         ⟨2, 2, none, none, 1⟩] : List LocationFix).foldl ingestFix
         emptyDeliveryState).last_location_update = some f.recorded_at) :=
  snapshot_present_is_last_inserted
    [⟨1, 1, none, none, 2⟩, ⟨2, 2, none, none, 1⟩] (by decide)

/-- C2: after ingesting N fixes in insertion order, the snapshot fields equal
the fields of the Nth-inserted fix, regardless of each fix's recorded-at value
and of the prior state of the delivery. -/
theorem snapshot_equals_nth_inserted_fix (st : DeliveryState)
    (fixes : List LocationFix) (f : LocationFix)
    (h : fixes.getLast? = some f) :
    (fixes.foldl ingestFix st).current_latitude = some f.latitude ∧
    (fixes.foldl ingestFix st).current_longitude = some f.longitude ∧
    (fixes.foldl ingestFix st).current_speed = f.speed ∧
    (fixes.foldl ingestFix st).current_heading = f.heading ∧
    (fixes.foldl ingestFix st).last_location_update = some f.recorded_at :=
  foldl_ingest_getLast fixes st f h

/-- C2 witness: two fixes where the second-inserted one has the older
recorded-at; the snapshot still takes the second one's fields. -/
theorem snapshot_equals_nth_inserted_fix_witness :
    (([⟨1, 1, none, none, 2⟩,
       ⟨2, 2, some 3, some 4, 1⟩] : List LocationFix).foldl ingestFix
       emptyDeliveryState).current_latitude = some 2 ∧
    (([⟨1, 1, none, none, 2⟩,
       ⟨2, 2, some 3, some 4, 1⟩] : List LocationFix).foldl ingestFix
       emptyDeliveryState).current_longitude = some 2 ∧
    (([⟨1, 1, none, none, 2⟩,
       ⟨2, 2, some 3, some 4, 1⟩] : List LocationFix).foldl ingestFix
       emptyDeliveryState).current_speed = some 3 ∧
    (([⟨1, 1, none, none, 2⟩,
       ⟨2, 2, some 3, some 4, 1⟩] : List LocationFix).foldl ingestFix
       emptyDeliveryState).current_heading = some 4 ∧
    (([⟨1, 1, none, none, 2⟩,
       ⟨2, 2, some 3, some 4, 1⟩] : List LocationFix).foldl ingestFix
       emptyDeliveryState).last_location_update = some 1 :=
  snapshot_equals_nth_inserted_fix emptyDeliveryState
    [⟨1, 1, none, none, 2⟩, ⟨2, 2, some 3, some 4, 1⟩]
    ⟨2, 2, some 3, some 4, 1⟩ (by decide)

/-! ### ETA estimator (`calculate_distance_km`, `estimate_arrival_time`) -/

/-- The transcendental primitives used by `calculate_distance_km`, abstracted:
no claim depends on their values, only on how NULLs flow around them. -/
structure MathFns where
  sin : ℚ → ℚ
  cos : ℚ → ℚ
  sqrt : ℚ → ℚ
  atan2 : ℚ → ℚ → ℚ
  radians : ℚ → ℚ

/-- SQL strict unary application: NULL in, NULL out. -/
def sqlUn (f : ℚ → ℚ) : Option ℚ → Option ℚ :=
  Option.map f

/-- SQL strict binary application: NULL on either side gives NULL. -/
def sqlBin (f : ℚ → ℚ → ℚ) : Option ℚ → Option ℚ → Option ℚ
  | some a, some b => some (f a b)
  | _, _ => none

@[simp] theorem sqlUn_none (f : ℚ → ℚ) : sqlUn f none = none := rfl

@[simp] theorem sqlUn_some (f : ℚ → ℚ) (a : ℚ) :
    sqlUn f (some a) = some (f a) := rfl

@[simp] theorem sqlBin_none_left (f : ℚ → ℚ → ℚ) (x : Option ℚ) :
    sqlBin f none x = none := by
  cases x <;> rfl

@[simp] theorem sqlBin_none_right (f : ℚ → ℚ → ℚ) (x : Option ℚ) :
    sqlBin f x none = none := by
  cases x <;> rfl

@[simp] theorem sqlBin_some_some (f : ℚ → ℚ → ℚ) (a b : ℚ) :
    sqlBin f (some a) (some b) = some (f a b) := rfl

/-- The SQL function `calculate_distance_km` (Haversine, Earth radius 6371),
embedded over SQL-nullable numerics; each plpgsql arithmetic step is a strict
operation, so a NULL argument propagates to a NULL result. -/
def calculate_distance_km (M : MathFns) (lat1 lon1 lat2 lon2 : Option ℚ) :
    Option ℚ :=
  let R : Option ℚ := some 6371
  let dlat := sqlUn M.radians (sqlBin (fun a b => a - b) lat2 lat1)
  let dlon := sqlUn M.radians (sqlBin (fun a b => a - b) lon2 lon1)
  let a :=
    sqlBin (fun a b => a + b)
      (sqlBin (fun a b => a * b)
        (sqlUn M.sin (sqlBin (fun a b => a / b) dlat (some 2)))
        (sqlUn M.sin (sqlBin (fun a b => a / b) dlat (some 2))))
      (sqlBin (fun a b => a * b)
        (sqlBin (fun a b => a * b)
          (sqlUn M.cos (sqlUn M.radians lat1))
          (sqlUn M.cos (sqlUn M.radians lat2)))
        (sqlBin (fun a b => a * b)
          (sqlUn M.sin (sqlBin (fun a b => a / b) dlon (some 2)))
          (sqlUn M.sin (sqlBin (fun a b => a / b) dlon (some 2)))))
  let c :=
    sqlBin (fun a b => a * b) (some 2)
      (sqlBin M.atan2 (sqlUn M.sqrt a)
        (sqlUn M.sqrt (sqlBin (fun a b => a - b) (some 1) a)))
  sqlBin (fun a b => a * b) R c

/-- The speed-substitution step of `estimate_arrival_time`:
`IF v_current_speed IS NULL OR v_current_speed < 1 THEN v_current_speed := 8.33`. -/
def substituted_speed : Option ℚ → ℚ
  | none => 833 / 100
  | some s => if s < 1 then 833 / 100 else s

/-- The ETA-minutes step of `estimate_arrival_time`:
`v_eta_minutes := (v_distance_km / (v_current_speed * 3.6)) * 60`, applied to
the (possibly NULL) distance and the substituted speed. -/
def eta_minutes_calc (v_distance_km v_current_speed : Option ℚ) : Option ℚ :=
  sqlBin (fun a b => a * b)
    (sqlBin (fun a b => a / b) v_distance_km
      (sqlBin (fun a b => a * b) (some (substituted_speed v_current_speed))
        (some (36 / 10))))
    (some 60)

/-- The SQL function `estimate_arrival_time`, as a function of the values its
two queries fetch (delivery snapshot latitude/longitude/speed, destination
restaurant latitude/longitude) and the clock `now` (in minutes, so that
`+ interval` is rational addition). It returns NULL early when either fetched
latitude is NULL; a NULL longitude instead propagates through the strict
arithmetic to a NULL result. The function is STABLE (read-only): it performs
no writes, which the embedding reflects by returning only the ETA value. -/
def estimate_arrival_time (M : MathFns) (now : ℚ)
    (v_current_lat v_current_lon v_current_speed v_dest_lat v_dest_lon :
      Option ℚ) : Option ℚ :=
  if v_current_lat = none ∨ v_dest_lat = none then
    none
  else
    sqlBin (fun a b => a + b) (some now)
      (eta_minutes_calc
        (calculate_distance_km M v_current_lat v_current_lon v_dest_lat
          v_dest_lon)
        v_current_speed)

/-- C3: the ETA estimator substitutes 8.33 exactly when the current speed is
NULL or below 1; eta-minutes is `(distance / (speed * 3.6)) * 60`; for
distance 10 km and speed 0 that value is `50000/2499`, within `1/100` of 20
minutes; and when both latitudes are present the result is `now` plus the
eta-minutes computed from the Haversine distance. -/
theorem eta_speed_fallback_and_value :
    (∀ sp : Option ℚ, (sp = none ∨ ∃ v, sp = some v ∧ v < 1) →
      substituted_speed sp = 833 / 100) ∧
    eta_minutes_calc (some 10) (some 0) =
      some ((10 / ((833 / 100) * (36 / 10))) * 60) ∧
    ((10 / (((833 : ℚ) / 100) * (36 / 10))) * 60 = 50000 / 2499 ∧
      |(50000 : ℚ) / 2499 - 20| < 1 / 100) ∧
    (∀ (M : MathFns) (now : ℚ)
        (lat1 lon1 sp lat2 lon2 : Option ℚ),
      lat1 ≠ none → lat2 ≠ none →
      estimate_arrival_time M now lat1 lon1 sp lat2 lon2 =
        sqlBin (fun a b => a + b) (some now)
          (eta_minutes_calc (calculate_distance_km M lat1 lon1 lat2 lon2)
            sp)) := by
  refine ⟨?_, ?_, ⟨by norm_num, by rw [abs_sub_lt_iff]; norm_num⟩, ?_⟩
  · intro sp h
    rcases h with h | ⟨v, hv, hlt⟩
    · subst h; rfl
    · subst hv
      simp [substituted_speed, hlt]
  · simp [eta_minutes_calc, substituted_speed]
  · intro M now lat1 lon1 sp lat2 lon2 h1 h2
    simp [estimate_arrival_time, h1, h2]

/-- C3 witness: the fallback applied at concrete speed 0 through the theorem. -/
theorem eta_speed_fallback_and_value_witness :
    substituted_speed (some 0) = 833 / 100 :=
  eta_speed_fallback_and_value.1 (some 0) (Or.inr ⟨0, rfl, by norm_num⟩)

/-- C4: whenever any of the four endpoint coordinates is NULL — either
latitude (caught by the explicit guard) or either longitude (propagated
through the strict SQL arithmetic) — `estimate_arrival_time` returns NULL,
with no error and no state change (the function is read-only). -/
theorem eta_null_when_endpoint_missing (M : MathFns) (now : ℚ)
    (lat1 lon1 sp lat2 lon2 : Option ℚ)
    (h : lat1 = none ∨ lon1 = none ∨ lat2 = none ∨ lon2 = none) :
    estimate_arrival_time M now lat1 lon1 sp lat2 lon2 = none := by
  rcases h with h | h | h | h
  · subst h; simp [estimate_arrival_time]
  · subst h
    unfold estimate_arrival_time
    split
    · rfl
    · simp [calculate_distance_km, eta_minutes_calc]
  · subst h; simp [estimate_arrival_time]
  · subst h
    unfold estimate_arrival_time
    split
    · rfl
    · simp [calculate_distance_km, eta_minutes_calc]

/-- A concrete instantiation of the abstract transcendental primitives, used
only to evaluate witnesses. -/
def trivMathFns : MathFns :=
  { sin := fun x => x
    cos := fun x => x
    sqrt := fun x => x
    atan2 := fun x _ => x
    radians := fun x => x }

/-- C4 witness: a missing destination longitude at otherwise concrete inputs
yields a NULL ETA. -/
theorem eta_null_when_endpoint_missing_witness :
    estimate_arrival_time trivMathFns 0 (some 1) (some 2) (some 7) (some 3)
      none = none :=
  eta_null_when_endpoint_missing trivMathFns 0 (some 1) (some 2) (some 7)
    (some 3) none (Or.inr (Or.inr (Or.inr rfl)))

/-! ### Mobile tracker service (`LocationTrackerService`) -/

/-- The session object passed to `startTracking`. -/
structure TrackingSession where
  deliveryId : String
  driverId : String
  restaurantId : String
deriving DecidableEq, Repr

/-- The mutable fields of the `LocationTrackerService` singleton. The
foreground subscription handle is modelled by whether one is held. -/
structure TrackerState where
  currentSession : Option TrackingSession
  isTracking : Bool
  foregroundSubscription : Bool
deriving DecidableEq, Repr

/-- The tracker before any call: no session, not tracking, no subscription. -/
def initialTrackerState : TrackerState :=
  { currentSession := none, isTracking := false,
    foregroundSubscription := false }

/-- The environment a tracker call observes: permission prompts' outcomes,
whether the background task is registered, and the clock (`ℚ` timestamp used
for `new Date().toISOString()`). -/
structure TrackerEnv where
  foregroundPermission : Bool
  backgroundPermission : Bool
  backgroundTaskRegistered : Bool
  now : ℚ

/-- One externally visible call the tracker makes: the delivery-status
updates, the watcher lifecycle calls, and the `delivery_locations` insert. -/
inductive Effect where
  | updateDelivery (deliveryId : String) (trackingStatus : String)
      (trackingStartedAt : Option ℚ) (trackingEndedAt : Option ℚ)
  | startForegroundWatch
  | startBackgroundUpdates
  | removeForegroundWatch
  | stopBackgroundUpdates
  | insertLocation (deliveryId driverId : String) (latitude longitude : ℚ)
      (speed heading accuracy : Option ℚ)
deriving DecidableEq, Repr

/-- A device GPS callback payload (`location.coords`). -/
structure LocationObject where
  latitude : ℚ
  longitude : ℚ
  speed : Option ℚ
  heading : Option ℚ
  accuracy : Option ℚ
deriving DecidableEq, Repr

/-- A concrete session used to evaluate witnesses. -/
def sessionA : TrackingSession :=
  { deliveryId := "d1", driverId := "dr1", restaurantId := "r1" }

/-- A second concrete session used to evaluate witnesses. -/
def sessionB : TrackingSession :=
  { deliveryId := "d2", driverId := "dr2", restaurantId := "r2" }

/-- A concrete tracker state with `sessionA` active. -/
def activeTrackerState : TrackerState :=
  { currentSession := some sessionA
    isTracking := true
    foregroundSubscription := true }

/-- A concrete environment with foreground permission refused. -/
def envDenied : TrackerEnv :=
  { foregroundPermission := false
    backgroundPermission := false
    backgroundTaskRegistered := false
    now := 0 }

/-- A concrete environment with foreground permission granted. -/
def envGranted : TrackerEnv :=
  { foregroundPermission := true
    backgroundPermission := false
    backgroundTaskRegistered := false
    now := 9 }

/-- `requestPermissions`: succeeds exactly when foreground permission is
granted; a refused background permission only logs a warning. -/
def requestPermissions (env : TrackerEnv) : Bool :=
  env.foregroundPermission

/-- `startTracking(session)`: early-returns true when already tracking;
returns false with no effect when permission is refused; otherwise stores the
session, updates the delivery to in_transit with a start timestamp, starts the
foreground watch, conditionally starts background updates, sets the tracking
flag and returns true. Returns the new state, the boolean result, and the
effects issued, in order. -/
def startTracking (st : TrackerState) (env : TrackerEnv)
    (session : TrackingSession) : TrackerState × Bool × List Effect :=
  if st.isTracking then
    (st, true, [])
  else if !requestPermissions env then
    (st, false, [])
  else
    let st1 := { st with currentSession := some session }
    let effects1 :=
      [Effect.updateDelivery session.deliveryId "in_transit" (some env.now)
        none]
    let st2 := { st1 with foregroundSubscription := true }
    let effects2 := effects1 ++ [Effect.startForegroundWatch]
    let effects3 :=
      if env.backgroundPermission then
        effects2 ++ [Effect.startBackgroundUpdates]
      else
        effects2
    ({ st2 with isTracking := true }, true, effects3)

/-- `stopTracking()`: early-returns when not tracking; otherwise removes the
foreground subscription if held, stops background updates if the task is
registered, marks the delivery delivered with an end timestamp if a session is
held, and clears session and tracking flag. -/
def stopTracking (st : TrackerState) (env : TrackerEnv) :
    TrackerState × List Effect :=
  if !st.isTracking then
    (st, [])
  else
    let effects1 :=
      if st.foregroundSubscription then [Effect.removeForegroundWatch] else []
    let st1 := { st with foregroundSubscription := false }
    let effects2 :=
      if env.backgroundTaskRegistered then
        effects1 ++ [Effect.stopBackgroundUpdates]
      else
        effects1
    let effects3 :=
      match st1.currentSession with
      | some s =>
          effects2 ++
            [Effect.updateDelivery s.deliveryId "delivered" none
              (some env.now)]
      | none => effects2
    ({ st1 with currentSession := none, isTracking := false }, effects3)

/-- `sendLocationUpdate(location)`: drops the fix when no session is held,
otherwise inserts one `delivery_locations` row from the session and the
coords. -/
def sendLocationUpdate (st : TrackerState) (location : LocationObject) :
    List Effect :=
  match st.currentSession with
  | none => []
  | some s =>
      [Effect.insertLocation s.deliveryId s.driverId location.latitude
        location.longitude location.speed location.heading location.accuracy]

/-- C5: with no session active, `startTracking` returns false and issues no
effect at all (in particular no delivery update) when location permission is
refused; when permission is granted it returns true, stores the session,
holds a foreground watch, sets the tracking flag, and issues the in_transit
update with start timestamp `now` followed by the foreground-watch start. -/
theorem startTracking_permission_behavior (st : TrackerState)
    (env : TrackerEnv) (session : TrackingSession)
    (hidle : st.isTracking = false) :
    (env.foregroundPermission = false →
      startTracking st env session = (st, false, [])) ∧
    (env.foregroundPermission = true →
      (startTracking st env session).1.currentSession = some session ∧
      (startTracking st env session).1.isTracking = true ∧
      (startTracking st env session).1.foregroundSubscription = true ∧
      (startTracking st env session).2.1 = true ∧
      (startTracking st env session).2.2 =
        [Effect.updateDelivery session.deliveryId "in_transit" (some env.now)
          none, Effect.startForegroundWatch] ++
        (if env.backgroundPermission then [Effect.startBackgroundUpdates]
         else [])) := by
  constructor
  · intro hp
    simp [startTracking, requestPermissions, hidle, hp]
  · intro hp
    simp only [startTracking, requestPermissions, hidle, hp]
    cases env.backgroundPermission <;> simp

/-- C5 witness: permission refused at a concrete idle state gives false and no
effects; permission granted gives true with the in_transit update. -/
theorem startTracking_permission_behavior_witness :
    (startTracking initialTrackerState envDenied sessionA =
      (initialTrackerState, false, [])) ∧
    (startTracking initialTrackerState envGranted sessionA).2.1 = true :=
  ⟨(startTracking_permission_behavior initialTrackerState envDenied sessionA
      rfl).1 rfl,
   ((startTracking_permission_behavior initialTrackerState envGranted sessionA
      rfl).2 rfl).2.2.2.1⟩

/-- C6: `startTracking` while already tracking is a no-op returning true: the
state is unchanged and no effect (no second watch, no delivery update) is
issued. -/
theorem startTracking_double_start_noop (st : TrackerState) (env : TrackerEnv)
    (session : TrackingSession) (h : st.isTracking = true) :
    startTracking st env session = (st, true, []) := by
  simp [startTracking, h]

/-- C6 witness: a concrete already-tracking state is left untouched. -/
theorem startTracking_double_start_noop_witness :
    startTracking activeTrackerState envGranted sessionB =
      (activeTrackerState, true, []) :=
  startTracking_double_start_noop activeTrackerState envGranted sessionB rfl

/-- C7: `stopTracking` when not tracking changes nothing and issues no effect;
when tracking with a session it clears the subscription, session and tracking
flag, issues the delivered update with end timestamp `now` (and the background
stop exactly when the task is registered), and a second consecutive call is a
no-op. -/
theorem stopTracking_idempotent (st : TrackerState) (env : TrackerEnv) :
    (st.isTracking = false → stopTracking st env = (st, [])) ∧
    (∀ s, st.isTracking = true → st.currentSession = some s →
      (stopTracking st env).1.currentSession = none ∧
      (stopTracking st env).1.isTracking = false ∧
      (stopTracking st env).1.foregroundSubscription = false ∧
      Effect.updateDelivery s.deliveryId "delivered" none (some env.now) ∈
        (stopTracking st env).2 ∧
      (Effect.stopBackgroundUpdates ∈ (stopTracking st env).2 ↔
        env.backgroundTaskRegistered = true) ∧
      stopTracking (stopTracking st env).1 env =
        ((stopTracking st env).1, [])) := by
  constructor
  · intro h
    simp [stopTracking, h]
  · intro s h hs
    have hstop : stopTracking st env =
        ({ st with
            currentSession := none
            isTracking := false
            foregroundSubscription := false },
          (if st.foregroundSubscription then [Effect.removeForegroundWatch]
           else []) ++
          (if env.backgroundTaskRegistered
           then [Effect.stopBackgroundUpdates] else []) ++
          [Effect.updateDelivery s.deliveryId "delivered" none
            (some env.now)]) := by
      simp only [stopTracking, h, hs]
      cases hf : st.foregroundSubscription <;>
        cases hb : env.backgroundTaskRegistered <;> simp
    rw [hstop]
    refine ⟨rfl, rfl, rfl, by simp, ?_, by simp [stopTracking]⟩
    cases hb : env.backgroundTaskRegistered <;> simp

/-- C7 witness: stopping when idle is a no-op, and stopping a concrete active
session clears it. -/
theorem stopTracking_idempotent_witness :
    (stopTracking initialTrackerState envGranted =
      (initialTrackerState, [])) ∧
    (stopTracking activeTrackerState envGranted).1.currentSession = none :=
  ⟨(stopTracking_idempotent initialTrackerState envGranted).1 rfl,
   ((stopTracking_idempotent activeTrackerState envGranted).2 sessionA
      rfl rfl).1⟩

/-- C10: `sendLocationUpdate` with no session held issues no insert (the fix
is silently dropped), and `stopTracking` on any tracking state clears the
session, so a callback firing after stop appends nothing through this path. -/
theorem sendLocationUpdate_dropped_after_stop (st : TrackerState)
    (env : TrackerEnv) (location : LocationObject) :
    (st.currentSession = none → sendLocationUpdate st location = []) ∧
    (st.isTracking = true →
      (stopTracking st env).1.currentSession = none ∧
      sendLocationUpdate (stopTracking st env).1 location = []) := by
  constructor
  · intro h
    simp [sendLocationUpdate, h]
  · intro h
    have h1 : (stopTracking st env).1.currentSession = none := by
      simp only [stopTracking, h]
      cases st.currentSession <;> simp
    exact ⟨h1, by simp [sendLocationUpdate, h1]⟩

/-- A concrete GPS callback payload used to evaluate witnesses. -/
def locationA : LocationObject :=
  { latitude := 1
    longitude := 2
    speed := none
    heading := none
    accuracy := none }

/-- C10 witness: a late callback after stopping a concrete session inserts
nothing. -/
theorem sendLocationUpdate_dropped_after_stop_witness :
    sendLocationUpdate (stopTracking activeTrackerState envGranted).1
      locationA = [] :=
  ((sendLocationUpdate_dropped_after_stop activeTrackerState envGranted
      locationA).2 rfl).2

/-! ### Tracking-status derivation (`getTrackingStatus`) -/

/-- The four derived tracking statuses. -/
inductive TrackingStatus where
  | not_started
  | tracking
  | arriving_soon
  | arrived
deriving DecidableEq, Repr

/-- JavaScript truthiness of an optional string parameter: `null`,
`undefined` and the empty string are falsy. -/
def jsTruthy : Option String → Bool
  | none => false
  | some s => !(s == "")

/-- The condition
`distanceKm !== null && distanceKm !== undefined && distanceKm < 0.5`. -/
def distanceBelowHalfKm : Option ℚ → Bool
  | none => false
  | some d => decide (d < 1 / 2)

/-- `getTrackingStatus(trackingStartedAt, trackingEndedAt, distanceKm)`,
with the JS truthiness tests of the two optional timestamp strings made
explicit. -/
def getTrackingStatus (trackingStartedAt trackingEndedAt : Option String)
    (distanceKm : Option ℚ) : TrackingStatus :=
  if jsTruthy trackingEndedAt then
    TrackingStatus.arrived
  else if !jsTruthy trackingStartedAt then
    TrackingStatus.not_started
  else if distanceBelowHalfKm distanceKm then
    TrackingStatus.arriving_soon
  else
    TrackingStatus.tracking

/-- C8: the derived status is `arrived` whenever the end timestamp is set
(truthy), regardless of the other inputs; otherwise `not_started` when the
start timestamp is absent; otherwise `arriving_soon` when the distance is
known and below 0.5 km; otherwise `tracking` (distance at least 0.5 km or
unknown). -/
theorem getTrackingStatus_cases
    (trackingStartedAt trackingEndedAt : Option String)
    (distanceKm : Option ℚ) :
    (jsTruthy trackingEndedAt = true →
      getTrackingStatus trackingStartedAt trackingEndedAt distanceKm =
        TrackingStatus.arrived) ∧
    (jsTruthy trackingEndedAt = false → jsTruthy trackingStartedAt = false →
      getTrackingStatus trackingStartedAt trackingEndedAt distanceKm =
        TrackingStatus.not_started) ∧
    (∀ d : ℚ, jsTruthy trackingEndedAt = false →
      jsTruthy trackingStartedAt = true → distanceKm = some d → d < 1 / 2 →
      getTrackingStatus trackingStartedAt trackingEndedAt distanceKm =
        TrackingStatus.arriving_soon) ∧
    (jsTruthy trackingEndedAt = false → jsTruthy trackingStartedAt = true →
      (distanceKm = none ∨ ∃ d : ℚ, distanceKm = some d ∧ 1 / 2 ≤ d) →
      getTrackingStatus trackingStartedAt trackingEndedAt distanceKm =
        TrackingStatus.tracking) := by
  refine ⟨?_, ?_, ?_, ?_⟩
  · intro he
    simp [getTrackingStatus, he]
  · intro he hs
    simp [getTrackingStatus, he, hs]
  · intro d he hs hd hlt
    simp [getTrackingStatus, he, hs, hd, distanceBelowHalfKm]
    linarith
  · intro he hs hd
    rcases hd with hd | ⟨d, hd, hge⟩
    · simp [getTrackingStatus, he, hs, hd, distanceBelowHalfKm]
    · simp [getTrackingStatus, he, hs, hd, distanceBelowHalfKm]
      linarith

/-- C8 witness: a set end timestamp dominates a short remaining distance. -/
theorem getTrackingStatus_cases_witness :
    getTrackingStatus (some "2026-02-04T10:00:00Z")
      (some "2026-02-04T11:00:00Z") (some (1 / 10)) =
      TrackingStatus.arrived :=
  (getTrackingStatus_cases (some "2026-02-04T10:00:00Z")
    (some "2026-02-04T11:00:00Z") (some (1 / 10))).1 (by decide)

/-! ### Subscriber history buffer (`useDeliveryLocation`) -/

/-- The initial history fetch: the query orders by `recorded_at` descending
and applies `limit(100)`, so the subscriber receives at most the first 100 of
the server's rows. -/
def fetchLocationHistory (rows : List LocationFix) : List LocationFix :=
  rows.take 100

/-- The realtime INSERT handler's history update:
`setLocationHistory(prev => [newLocation, ...prev].slice(0, 100))`. -/
def handleLocationInsert (prev : List LocationFix)
    (newLocation : LocationFix) : List LocationFix :=
  (newLocation :: prev).take 100

/-- Folding any number of realtime inserts over a buffer of at most 100
entries keeps it at most 100 entries. -/
theorem foldl_handleLocationInsert_le (events : List LocationFix) :
    ∀ init : List LocationFix, init.length ≤ 100 →
      (events.foldl handleLocationInsert init).length ≤ 100 := by
  induction events with
  | nil => intro init h; simpa using h
  | cons e es ih =>
    intro init h
    simp only [List.foldl_cons]
    refine ih _ ?_
    simp only [handleLocationInsert, List.length_take]
    exact min_le_left _ _

/-- C9: the in-memory location-history list never exceeds 100 entries — after
the initial fetch (limited to 100) and after any number of incoming realtime
fix events, each prepended and capped at 100. -/
theorem locationHistory_bounded (rows events : List LocationFix) :
    (events.foldl handleLocationInsert (fetchLocationHistory rows)).length ≤
      100 :=
  foldl_handleLocationInsert_le events (fetchLocationHistory rows)
    (by simp only [fetchLocationHistory, List.length_take]
        exact min_le_left _ _)

end Deliveri
